import Mathlib

/-
Shallow embedding of the core of the `follow_the_money` repository
(files follow.py and initialize.py).

Modelling conventions:
* Python floats are modelled as exact rationals (ℚ); `datetime` and
  `timedelta` values are modelled as rationals as well (the code only
  subtracts and compares them).
* Rational division in Lean is total with `x / 0 = 0`; the embedded code
  never relies on that convention in any theorem below (all concrete
  inputs keep denominators nonzero on the evaluated paths).
* CPython `for x in lst:` iterates with an internal index that is
  incremented each time an element is yielded; `lst.remove(x)` compares
  with `==`, which for `Branch` objects (no `__eq__`) is object identity,
  so it deletes exactly the element at the current position and shifts
  the rest left.  Loops that mutate the list they iterate over are
  therefore embedded as index-based loops where a removal erases the
  current index while the index still advances.  The loops are written
  with an explicit step budget equal to the initial list length: the
  index grows by one per step and the length never grows, so the budget
  is never exhausted before the Python loop would stop.
* Code that raises (IndexError, UnboundLocalError, ValueError) is
  embedded with `Option`, `none` marking the raise.
-/

namespace FTM

/-- Transaction, as used by the tracking engine (follow.py): the fields of
`initialize.Transaction` that the Branch/Flow/Tracker code reads. -/
structure Txn where
  txn_ID : String
  timestamp : ℚ
  src_acct : String
  tgt_acct : String
  type : String
  categ : String
  amt_out : ℚ
  amt_in : ℚ
  fee_scaling : ℚ
  deriving DecidableEq

/-- Branch (follow.py, class Branch): `root` is a branch whose `prev` is
None, `cons` one whose `prev` is another branch. -/
inductive Branch where
  | root (txn : Txn) (amt : ℚ)
  | cons (prev : Branch) (txn : Txn) (amt : ℚ)
  deriving DecidableEq

/-- Accessor for `branch.txn`. -/
def Branch.txn : Branch → Txn
  | .root t _ => t
  | .cons _ t _ => t

/-- Accessor for `branch.amt`. -/
def Branch.amt : Branch → ℚ
  | .root _ a => a
  | .cons _ _ a => a

/-- Accessor for `branch.prev` (None for a root branch). -/
def Branch.prev : Branch → Option Branch
  | .root _ _ => none
  | .cons p _ _ => some p

/-- Replace the amount of a branch, keeping `prev` and `txn`; this is what
`Branch(branch.prev, branch.txn, amt)` builds and what the in-place
mutations of `amt` produce. -/
def Branch.withAmt : Branch → ℚ → Branch
  | .root t _, a => .root t a
  | .cons p t _, a => .cons p t a

/-- Branch.decrement (follow.py lines 26-29): `amt ← amt − x` (the guard
only `pass`es, it never raises). -/
def Branch.decrement (b : Branch) (x : ℚ) : Branch :=
  b.withAmt (b.amt - x)

/-- Branch.depreciate (follow.py lines 30-33): `amt ← factor · amt`. -/
def Branch.depreciate (b : Branch) (factor : ℚ) : Branch :=
  b.withAmt (factor * b.amt)

/-- Flow (follow.py, class Flow). -/
structure Flow where
  timestamp : ℚ
  txn_IDs : List String
  txn_types : List String
  beg_categ : String
  end_categ : String
  acct_IDs : List String
  amt : ℚ
  rev_fracs : List ℚ
  frac_root : ℚ
  duration : ℚ
  durations : List ℚ
  length : ℕ
  length_wrev : ℚ
  deriving DecidableEq

/-- Flow.__init__ (follow.py lines 65-81), seeded at a root branch with a
net amount and a fee. -/
def Flow.init (t : Txn) (amt fee : ℚ) : Flow :=
  { timestamp := t.timestamp
    txn_IDs := [t.txn_ID]
    txn_types := [t.type]
    beg_categ := t.categ
    end_categ := t.categ
    acct_IDs := [t.src_acct, t.tgt_acct]
    amt := amt + fee
    rev_fracs := [fee / (amt + fee)]
    frac_root := (amt + fee) / t.amt_out
    duration := 0
    durations := []
    length := if t.categ = "transfer" then 1 else 0
    length_wrev := if t.categ = "transfer" then t.amt_in / t.amt_out else 0 }

/-- Flow.extend (follow.py lines 82-94): incorporate a subsequent branch
carrying surviving amount `amt`; `prev_ts` is `branch.prev.txn.timestamp`. -/
def Flow.extend (f : Flow) (t : Txn) (prev_ts : ℚ) (amt : ℚ) : Flow :=
  { f with
    txn_IDs := f.txn_IDs ++ [t.txn_ID]
    acct_IDs := f.acct_IDs ++ [t.tgt_acct]
    txn_types := f.txn_types ++ [t.type]
    end_categ := t.categ
    rev_fracs := f.rev_fracs ++ [1 - amt / f.amt]
    duration := f.duration + (t.timestamp - prev_ts)
    durations := f.durations ++ [t.timestamp - prev_ts]
    length := f.length + (if t.categ = "transfer" then 1 else 0)
    length_wrev := f.length_wrev + (if t.categ = "transfer" then amt / f.amt else 0) }

/-- Fee resolution of follow.py line 39: `fee = fee if fee else
amt*self.txn.fee_scaling`.  Python truthiness: both a missing fee (None)
and an explicit fee of 0 are falsy, so in both cases the fee is
recomputed; any nonzero fee is used as given. -/
def resolveFee (feeOpt : Option ℚ) (computed : ℚ) : ℚ :=
  match feeOpt with
  | some f => if f = 0 then computed else f
  | none => computed

/-- Branch.follow_back (follow.py lines 34-47): the recursive walk from a
leaf branch to its root, building the Flow on the way back; the recursive
call passes `amt + fee` and no explicit fee. -/
def Branch.follow_back : Branch → ℚ → Option ℚ → Flow
  | .root t _, amt, feeOpt => Flow.init t amt (resolveFee feeOpt (amt * t.fee_scaling))
  | .cons p t _, amt, feeOpt =>
      (p.follow_back (amt + resolveFee feeOpt (amt * t.fee_scaling)) none).extend
        t p.txn.timestamp amt

/-- Sum of the amounts of the branches in a tracker list:
`sum(branch.amt for branch in self)`. -/
def sumAmt (l : List Branch) : ℚ :=
  (l.map Branch.amt).sum

/-- Flow length invariants of spec section 8: list-length relations among
the trajectory fields of a Flow. -/
def flowLensOk (f : Flow) : Prop :=
  f.acct_IDs.length = f.txn_IDs.length + 1 ∧
  f.durations.length = f.txn_IDs.length - 1 ∧
  f.rev_fracs.length = f.txn_IDs.length

/-- Well-mixed final remove/depreciate loop (follow.py lines 283-287),
with CPython iteration semantics: the index advances after each yielded
element even when the element was just removed, so the element after a
removed one is skipped.  `fuel` is the step budget (the initial list
length suffices, see the header comment). -/
def wmFinalGo (r stay : ℚ) : ℕ → ℕ → List Branch → List Branch
  | 0, _, l => l
  | Nat.succ fuel, i, l =>
    if h : i < l.length then
      let b := l[i]
      if stay * b.amt < r then wmFinalGo r stay fuel (i + 1) (l.eraseIdx i)
      else wmFinalGo r stay fuel (i + 1) (l.set i (b.depreciate stay))
    else l

/-- Well-mixed final loop at its call site: iterate over the current
tracker list from index 0. -/
def wmFinal (r stay : ℚ) (l : List Branch) : List Branch :=
  wmFinalGo r stay l.length 0 l

/-- Body of the well-mixed main loop (follow.py lines 262-268): extend one
branch of the source tracker by the outgoing transaction. -/
def wmExtendStep (r track_factor split_factor : ℚ) (t : Txn)
    (acc : List Branch × List Flow) (b : Branch) : List Branch × List Flow :=
  if track_factor * b.amt > r then
    let nb := Branch.cons b t (split_factor * b.amt)
    if nb.amt > r then (acc.1 ++ [nb], acc.2)
    else (acc.1, acc.2 ++ [nb.follow_back nb.amt (some (track_factor * b.amt - nb.amt))])
  else acc

/-- Well_mixed_tracker.extend_branches (follow.py lines 253-288): returns
the new pool and new flows together with the updated source tracker
(the Python method mutates `self` in its final loop). -/
def wellMixedExtend (r balance : ℚ) (t : Txn) (tr : List Branch) :
    (List Branch × List Flow) × List Branch :=
  let track_factor := t.amt_out / balance
  let split_factor := t.amt_in / balance
  let stay_factor := (balance - t.amt_out) / balance
  let main := tr.foldl (wmExtendStep r track_factor split_factor t) ([], [])
  let amt_untracked := t.amt_in - sumAmt main.1
  let res :=
    if amt_untracked > r then (main.1 ++ [Branch.root t amt_untracked], main.2)
    else
      let tot_untracked := t.amt_out - sumAmt tr
      if tot_untracked > r then
        let nb := Branch.root t (tot_untracked * (t.amt_in / t.amt_out))
        (main.1, main.2 ++ [nb.follow_back nb.amt (some (tot_untracked - nb.amt))])
      else main
  (res, wmFinal r stay_factor tr)

/-- System.process (initialize.py lines 95-98): the driver balance update,
`src.balance −= amt_out; tgt.balance += amt_in`. -/
def systemProcess (src_balance tgt_balance : ℚ) (t : Txn) : ℚ × ℚ :=
  (src_balance - t.amt_out, tgt_balance + t.amt_in)

/-- Tracker.stop_tracking with a timestamp (follow.py lines 137-142), with
CPython iteration semantics as in `wmFinalGo`: `self.remove(branch)`
during iteration makes the loop skip the element after the removed one.
Returns the flows in emission order and the remaining tracker list. -/
def stopTrackingGo (cutoff ts : ℚ) : ℕ → ℕ → List Branch → List Flow × List Branch
  | 0, _, l => ([], l)
  | Nat.succ fuel, i, l =>
    if h : i < l.length then
      let b := l[i]
      if ts - b.txn.timestamp > cutoff then
        let res := stopTrackingGo cutoff ts fuel (i + 1) (l.eraseIdx i)
        (b.follow_back b.amt none :: res.1, res.2)
      else stopTrackingGo cutoff ts fuel (i + 1) l
    else ([], l)

/-- Tracker.stop_tracking (follow.py lines 133-146): with a timestamp,
run the removal loop; with no timestamp, follow back every branch and
empty the tracker. -/
def stop_tracking (cutoff : ℚ) (ts : Option ℚ) (l : List Branch) :
    List Flow × List Branch :=
  match ts with
  | some t => stopTrackingGo cutoff t l.length 0 l
  | none => (l.map (fun b => b.follow_back b.amt none), [])

/-- State of the greedy (LIFO) pop loop of follow.py lines 212-222:
the remaining `amt` to remove, the tracker list (Python order, newest at
the end) and the branches collected so far (in pop order). -/
structure GreedyState where
  amt : ℚ
  stack : List Branch
  branches : List Branch
  deriving DecidableEq

/-- One iteration of the greedy pop loop body (follow.py lines 214-222):
read `self[-1]` (IndexError on an empty list is modelled as `none`), then
either consume the tail branch entirely or split it in place. -/
def greedyLoopStep (r : ℚ) (s : GreedyState) : Option GreedyState :=
  match s.stack.getLast? with
  | none => none
  | some b =>
    if b.amt < s.amt + r then
      some ⟨s.amt - b.amt, s.stack.dropLast, s.branches ++ [b]⟩
    else
      some ⟨0, s.stack.dropLast ++ [b.decrement s.amt], s.branches ++ [b.withAmt s.amt]⟩

/-- The greedy pop loop (follow.py line 212): `while amt >
resolution_limit`, iterated with a step budget. -/
def greedyLoop (r : ℚ) : ℕ → GreedyState → Option GreedyState
  | 0, _ => none
  | Nat.succ fuel, s =>
    if s.amt > r then
      match greedyLoopStep r s with
      | none => none
      | some s2 => greedyLoop r fuel s2
    else some s

/-- The three fee conventions of initialize.py
System.define_fee_accounting (lines 25-33). -/
inductive FeeConvention where
  | sender
  | recipient
  | split
  deriving DecidableEq

/-- System.get_amounts under each fee convention: `(amt_out, amt_in, fee)`
derived from the record's `amt`, `src_fee`, `tgt_fee`. -/
def get_amounts : FeeConvention → ℚ → ℚ → ℚ → ℚ × ℚ × ℚ
  | .sender, amt, src_fee, _ => (amt + src_fee, amt, src_fee)
  | .recipient, amt, _, tgt_fee => (amt, amt - tgt_fee, tgt_fee)
  | .split, amt, src_fee, tgt_fee => (amt + src_fee, amt - tgt_fee, src_fee + tgt_fee)

/-- The amount fields a Transaction derives at construction
(initialize.py lines 110-115); `fee_scaling` is None when `fee/amt_in`
raises ZeroDivisionError. -/
structure TxnRec where
  amt_out : ℚ
  amt_in : ℚ
  fee : ℚ
  fee_scaling : Option ℚ
  deriving DecidableEq

/-- Transaction.__init__ amount derivation (initialize.py lines 110-115):
compute the amounts from the fee convention and raise (modelled `none`)
when `amt_out < amt_in`. -/
def mkTransaction (conv : FeeConvention) (amt src_fee tgt_fee : ℚ) : Option TxnRec :=
  let amts := get_amounts conv amt src_fee tgt_fee
  if amts.1 < amts.2.1 then none
  else
    some { amt_out := amts.1
           amt_in := amts.2.1
           fee := amts.2.2
           fee_scaling := if amts.2.1 = 0 then none else some (amts.2.2 / amts.2.1) }

/-- Result of the negative-`amt_in` correction of Tracker.process
(follow.py lines 166-174): the corrected transaction fields, the target
balance, and the `(amt, fee)` arguments of the `infer_withdraw` call made
when the target is tracked (`none` when no call is made). -/
structure ProcClampResult where
  amt_in : ℚ
  amt_out : ℚ
  fee_scaling : ℚ
  tgt_balance : ℚ
  withdrawCall : Option (ℚ × ℚ)
  deriving DecidableEq

/-- The negative-`amt_in` correction of Tracker.process (follow.py lines
166-174): when `amt_in < 0`, request an inferred withdraw of the excess
fee on a tracked target, add the (negative) `amt_in` to the target
balance, then set `fee_scaling = 1` and `amt_in = 0`. -/
def processNegClamp (tgt_track : Bool) (amt_in amt_out fee_scaling tgt_balance : ℚ) :
    ProcClampResult :=
  if amt_in < 0 then
    { amt_in := 0
      amt_out := amt_out
      fee_scaling := 1
      tgt_balance := tgt_balance + amt_in
      withdrawCall := if tgt_track then some (0, 0 - amt_in) else none }
  else
    { amt_in := amt_in
      amt_out := amt_out
      fee_scaling := fee_scaling
      tgt_balance := tgt_balance
      withdrawCall := none }

/-- Guard of Tracker.infer_withdraw (follow.py line 153): the inferred
withdraw yields anything only when `amt + fee > resolution_limit`. -/
def inferWithdrawEmits (r amt fee : ℚ) : Bool :=
  decide (amt + fee > r)

/-- What the negative-`amt_in` correction establishes (used to state the
amended claim C7): corrected fields, balance update, the infer-withdraw
request and its emission guard, and the sign invariant under the proviso
`0 ≤ amt_out`. -/
def clampSpec (tgt_track : Bool) (amt_in amt_out fs bal r : ℚ) : Prop :=
  (processNegClamp tgt_track amt_in amt_out fs bal).amt_in = 0
  ∧ (processNegClamp tgt_track amt_in amt_out fs bal).fee_scaling = 1
  ∧ (processNegClamp tgt_track amt_in amt_out fs bal).tgt_balance = bal + amt_in
  ∧ (processNegClamp tgt_track amt_in amt_out fs bal).amt_out = amt_out
  ∧ (tgt_track = true →
      (processNegClamp tgt_track amt_in amt_out fs bal).withdrawCall = some (0, 0 - amt_in))
  ∧ (inferWithdrawEmits r 0 (0 - amt_in) = true ↔ r < 0 - amt_in)
  ∧ (0 ≤ amt_out →
      (processNegClamp tgt_track amt_in amt_out fs bal).amt_in
        ≤ (processNegClamp tgt_track amt_in amt_out fs bal).amt_out
      ∧ 0 ≤ (processNegClamp tgt_track amt_in amt_out fs bal).amt_in)

/-- Second component returned by the base Tracker.extend_branches: the
code binds `new_flows` either to a list (line 128) or to a bare Flow
object (line 131, no brackets around the follow_back call). -/
inductive NewFlows where
  | list (fs : List Flow)
  | single (f : Flow)

/-- True exactly when the `new_flows` component is a list. -/
def isFlowList : NewFlows → Bool
  | .list _ => true
  | .single _ => false

/-- Tracker.extend_branches, the base no-tracking version (follow.py lines
118-132).  When `amt_out ≤ resolution_limit` neither `new_branches` nor
`new_flows` is ever assigned and the `return` raises UnboundLocalError,
modelled as `none`. -/
def baseExtendBranches (r : ℚ) (t : Txn) : Option (List Branch × NewFlows) :=
  if t.amt_out > r then
    let nb := Branch.root t t.amt_in
    if t.amt_in > r then some ([nb], .list [])
    else some ([], .single (nb.follow_back nb.amt (some (t.amt_out - t.amt_in))))
  else none

/-- The inferred withdraw Transaction built by Tracker.infer_withdraw at
end-of-stream flush (follow.py lines 152-155): `amt` with zero fees, so
under every fee convention `amt_out = amt_in = amt` and `fee_scaling = 0`;
timestamped at the end of the time window. -/
def mkInferredWithdraw (acct_ID : String) (tw_end amt : ℚ) : Txn :=
  { txn_ID := "i"
    timestamp := tw_end
    src_acct := acct_ID
    tgt_acct := acct_ID
    type := "inferred"
    categ := "withdraw"
    amt_out := amt
    amt_in := amt
    fee_scaling := 0 }

/-- Configuration of the end-of-stream flush (track_remaining_funds,
follow.py lines 366-378): cutoff, resolution limit, inference flag, end
of the time window, and the heuristic's extend_branches
(tracker, account balance, transaction ↦ (new_branches, new_flows),
updated tracker). -/
structure FlushCfg where
  time_cutoff : Option ℚ
  resolution_limit : ℚ
  infer : Bool
  tw_end : ℚ
  ext : List Branch → ℚ → Txn → (List Branch × List Flow) × List Branch

/-- Tracker.infer_withdraw as called from the flush with `track=True`
(follow.py lines 152-159): guard `amt + fee > resolution_limit` with
`fee = 0`, then extend by the inferred transaction and follow every new
branch back (`Branch.new_leaves` with `skip_leaf=False`). -/
def inferWithdrawFlush (cfg : FlushCfg) (acct_ID : String) (balance : ℚ)
    (tr : List Branch) (amt : ℚ) : List Flow × List Branch :=
  if amt + 0 > cfg.resolution_limit then
    let res := cfg.ext tr balance (mkInferredWithdraw acct_ID cfg.tw_end amt)
    (res.1.1.map (fun b => b.follow_back b.amt none) ++ res.1.2, res.2)
  else ([], tr)

/-- Account state at flush time: identifier, balance, and the optional
tracker list (`has_tracker()` is `isinstance(self.tracker, list)`). -/
structure AccountState where
  acct_ID : String
  balance : ℚ
  tracker : Option (List Branch)

/-- The flows one account emits during the end-of-stream flush
(follow.py lines 370-375): nothing when the account has no tracker;
otherwise the cutoff sweep at the window end (when a cutoff is set)
followed by either an inferred withdraw of the remaining balance or a
full stop_tracking, each guarded by `balance > resolution_limit`. -/
def flushAccountFlows (cfg : FlushCfg) (a : AccountState) : List Flow :=
  match a.tracker with
  | none => []
  | some tr =>
    let step1 : List Flow × List Branch :=
      match cfg.time_cutoff with
      | some c => stop_tracking c (some cfg.tw_end) tr
      | none => ([], tr)
    let step2 : List Flow × List Branch :=
      if cfg.infer then
        if a.balance > cfg.resolution_limit
        then inferWithdrawFlush cfg a.acct_ID a.balance step1.2 a.balance
        else ([], step1.2)
      else
        if a.balance > cfg.resolution_limit
        then stop_tracking 0 none step1.2
        else ([], step1.2)
    step1.1 ++ step2.1

/-- One account's end-of-stream flush: the emitted flows and the
closed-out account (Account.close_out, initialize.py lines 148-150:
balance 0, tracker None; it runs unconditionally). -/
def flushAccount (cfg : FlushCfg) (a : AccountState) : List Flow × AccountState :=
  (flushAccountFlows cfg a, { acct_ID := a.acct_ID, balance := 0, tracker := none })

/-- track_remaining_funds over the whole population of accounts
(follow.py lines 366-378): flows are emitted account by account in
order, and every account is closed out. -/
def flushSystem (cfg : FlushCfg) : List AccountState → List Flow × List AccountState
  | [] => ([], [])
  | a :: rest =>
    let fa := flushAccount cfg a
    let frest := flushSystem cfg rest
    (fa.1 ++ frest.1, fa.2 :: frest.2)

/-- A transfer with a 10% sender fee: `amt_out = 110`, `amt_in = 100`,
`fee_scaling = 10/100`. -/
def txnFee : Txn :=
  { txn_ID := "t1", timestamp := 0, src_acct := "A", tgt_acct := "B"
    type := "transfer", categ := "transfer"
    amt_out := 110, amt_in := 100, fee_scaling := 1/10 }

/-- A root branch over `txnFee`, used as a parent branch. -/
def pRoot : Branch := Branch.root txnFee 100

/-- A deposit of 0.019 into account B at time 1. -/
def depA : Txn :=
  { txn_ID := "d1", timestamp := 1, src_acct := "A", tgt_acct := "B"
    type := "deposit", categ := "deposit"
    amt_out := 19/1000, amt_in := 19/1000, fee_scaling := 0 }

/-- A deposit of 99 into account B at time 2. -/
def depB : Txn :=
  { txn_ID := "d2", timestamp := 2, src_acct := "X", tgt_acct := "B"
    type := "deposit", categ := "deposit"
    amt_out := 99, amt_in := 99, fee_scaling := 0 }

/-- A fee-free transfer of 50 out of account B at time 3. -/
def txnWM : Txn :=
  { txn_ID := "t3", timestamp := 3, src_acct := "B", tgt_acct := "C"
    type := "transfer", categ := "transfer"
    amt_out := 50, amt_in := 50, fee_scaling := 0 }

/-- Tracker of account B holding the two deposit branches, 0.019 then 99
(newest last, Python list order). -/
def trWM : List Branch := [Branch.root depA (19/1000), Branch.root depB 99]

/-- A deposit at time 10 (expired by time 100 under a cutoff of 24). -/
def depO1 : Txn :=
  { txn_ID := "o1", timestamp := 10, src_acct := "A", tgt_acct := "B"
    type := "deposit", categ := "deposit"
    amt_out := 5, amt_in := 5, fee_scaling := 0 }

/-- A deposit at time 20 (also expired by time 100 under a cutoff of 24). -/
def depO2 : Txn :=
  { txn_ID := "o2", timestamp := 20, src_acct := "X", tgt_acct := "B"
    type := "deposit", categ := "deposit"
    amt_out := 7, amt_in := 7, fee_scaling := 0 }

/-- A tracker with two consecutive expired branches. -/
def trOld : List Branch := [Branch.root depO1 5, Branch.root depO2 7]

/-- A fee-free transfer used to build greedy-loop branches. -/
def txnG : Txn :=
  { txn_ID := "g1", timestamp := 5, src_acct := "B", tgt_acct := "C"
    type := "transfer", categ := "transfer"
    amt_out := 10, amt_in := 10, fee_scaling := 0 }

/-- A branch whose amount is exactly `amt_to_remove + resolution_limit`
for `amt_to_remove = 1/2`, `resolution_limit = 1/100`. -/
def bG : Branch := Branch.root txnG (51/100)

/-- A branch small enough to be consumed by the greedy loop at
`amt_to_remove = 1/2`. -/
def bW1 : Branch := Branch.root txnG (1/4)

/-- A branch large enough to be split by the greedy loop at
`amt_to_remove = 1/2`. -/
def bW2 : Branch := Branch.root txnG 2

/-- A transaction with `amt_out = 0.005`, below the default resolution
limit of 0.01. -/
def txnTiny : Txn :=
  { txn_ID := "s1", timestamp := 0, src_acct := "A", tgt_acct := "B"
    type := "transfer", categ := "transfer"
    amt_out := 1/200, amt_in := 1/200, fee_scaling := 0 }

/-- A transaction whose `amt_out` clears the resolution limit but whose
`amt_in` does not (the fee ate nearly all of it). -/
def txnFeeEaten : Txn :=
  { txn_ID := "s2", timestamp := 0, src_acct := "A", tgt_acct := "B"
    type := "transfer", categ := "transfer"
    amt_out := 1/10, amt_in := 1/200, fee_scaling := 19 }

/-- The TxnRec produced by the split convention from
`amt = 10, src_fee = 1, tgt_fee = 2`. -/
def txnRecEx : TxnRec :=
  { amt_out := 11, amt_in := 8, fee := 3, fee_scaling := some (3/8) }

end FTM

namespace FTM

/-- Helper for the Flow shape invariant: along any follow-back, the
account list is one longer than the transaction list, the transaction
list one longer than the duration list, and the revenue-fraction list as
long as the transaction list. -/
theorem follow_back_lens (b : Branch) (amt : ℚ) (feeOpt : Option ℚ) :
    ((b.follow_back amt feeOpt).acct_IDs.length
        = (b.follow_back amt feeOpt).txn_IDs.length + 1)
  ∧ ((b.follow_back amt feeOpt).txn_IDs.length
        = (b.follow_back amt feeOpt).durations.length + 1)
  ∧ ((b.follow_back amt feeOpt).rev_fracs.length
        = (b.follow_back amt feeOpt).txn_IDs.length) := by
  induction b generalizing amt feeOpt with
  | root t a =>
      simp [Branch.follow_back, Flow.init]
  | cons p t a ih =>
      obtain ⟨h1, h2, h3⟩ := ih (amt + resolveFee feeOpt (amt * t.fee_scaling)) none
      simp only [Branch.follow_back, Flow.extend, List.length_append, List.length_cons,
        List.length_nil]
      omega

/-- Claim C6: every Flow ever produced (at seeding via `Flow.init` and
after any number of `Flow.extend` steps performed inside `follow_back`)
satisfies `len(acct_IDs) = len(txn_IDs) + 1`,
`len(durations) = len(txn_IDs) − 1` and `len(rev_fracs) = len(txn_IDs)`. -/
theorem c6_flow_shape :
    (∀ (t : Txn) (amt fee : ℚ), flowLensOk (Flow.init t amt fee))
  ∧ (∀ (b : Branch) (amt : ℚ) (feeOpt : Option ℚ),
      flowLensOk (b.follow_back amt feeOpt)) := by
  constructor
  · intro t amt fee
    simp [flowLensOk, Flow.init]
  · intro b amt feeOpt
    obtain ⟨h1, h2, h3⟩ := follow_back_lens b amt feeOpt
    exact ⟨h1, by omega, h3⟩

/-- Claim C4, amended: `follow_back` uses the caller-supplied fee exactly
when that fee is nonzero; when the fee is omitted or equals 0 (both are
falsy in `fee if fee else amt*self.txn.fee_scaling`), the fee is
recomputed as `amt · txn.fee_scaling`; the recursive call to the parent
always requests the gross amount `amt + fee` for the fee so resolved. -/
theorem c4_fee_resolution (p : Branch) (t : Txn) (a amt f : ℚ) :
    (f ≠ 0 → (Branch.cons p t a).follow_back amt (some f)
      = (p.follow_back (amt + f) none).extend t p.txn.timestamp amt)
  ∧ ((Branch.cons p t a).follow_back amt none
      = (p.follow_back (amt + amt * t.fee_scaling) none).extend t p.txn.timestamp amt)
  ∧ ((Branch.cons p t a).follow_back amt (some 0)
      = (p.follow_back (amt + amt * t.fee_scaling) none).extend t p.txn.timestamp amt)
  ∧ (f ≠ 0 → (Branch.root t a).follow_back amt (some f) = Flow.init t amt f)
  ∧ ((Branch.root t a).follow_back amt none = Flow.init t amt (amt * t.fee_scaling)) := by
  refine ⟨fun hf => ?_, ?_, ?_, fun hf => ?_, ?_⟩ <;>
    simp [Branch.follow_back, resolveFee, *]

/-- Witness for C4: the fee-resolution theorem applied at a concrete
two-branch chain with a nonzero explicit fee. -/
theorem c4_fee_resolution_witness :
    (Branch.cons pRoot txnFee 1).follow_back 10 (some 5)
      = (pRoot.follow_back (10 + 5) none).extend txnFee pRoot.txn.timestamp 10
  ∧ (Branch.root txnFee 1).follow_back 10 (some 5) = Flow.init txnFee 10 5 :=
  ⟨(c4_fee_resolution pRoot txnFee 1 10 5).1 (by norm_num),
   (c4_fee_resolution pRoot txnFee 1 10 5).2.2.2.1 (by norm_num)⟩

unseal Rat.add Rat.mul Rat.sub Rat.inv in
/-- Counterexample to C4 as stated: an explicitly supplied fee of 0 is
not used.  On a root branch of `txnFee` (fee_scaling 1/10),
`follow_back(10, fee=0)` builds a flow of gross amount 11, not the
10 + 0 the claim requires for a caller-supplied fee of 0. -/
theorem c4_explicit_zero_fee_recomputed :
    ((Branch.root txnFee 100).follow_back 10 (some 0)).amt = 11
  ∧ ((11 : ℚ) ≠ 10 + 0) := by
  constructor
  · decide
  · norm_num

/-- Claim C5, amended: in the LIFO pop loop, the tail branch is consumed
entirely exactly when its amount is strictly below
`amt_to_remove + resolution_limit`; otherwise (amount ≥ that bound) it is
split: a detached branch `(b.prev, b.txn, amt_to_remove)` is collected,
the in-place branch is decremented by `amt_to_remove` and stays in the
tracker, and `amt_to_remove` becomes 0. -/
theorem c5_pop_step (r amt : ℚ) (stack branches : List Branch) (b : Branch) :
    (b.amt < amt + r →
      greedyLoopStep r ⟨amt, stack ++ [b], branches⟩
        = some ⟨amt - b.amt, stack, branches ++ [b]⟩)
  ∧ (¬ b.amt < amt + r →
      greedyLoopStep r ⟨amt, stack ++ [b], branches⟩
        = some ⟨0, stack ++ [b.decrement amt], branches ++ [b.withAmt amt]⟩) := by
  constructor <;> intro h <;>
    simp [greedyLoopStep, List.getLast?_concat, List.dropLast_concat, h]

unseal Rat.add Rat.mul Rat.sub Rat.inv in
/-- Witness for C5: one consumed iteration and one split iteration at
concrete inputs. -/
theorem c5_pop_step_witness :
    greedyLoopStep (1/100) ⟨1/2, [] ++ [bW1], []⟩ = some ⟨1/2 - bW1.amt, [], [] ++ [bW1]⟩
  ∧ greedyLoopStep (1/100) ⟨1/2, [] ++ [bW2], []⟩
      = some ⟨0, [] ++ [bW2.decrement (1/2)], [] ++ [bW2.withAmt (1/2)]⟩ :=
  ⟨(c5_pop_step (1/100) (1/2) [] [] bW1).1 (by decide),
   (c5_pop_step (1/100) (1/2) [] [] bW2).2 (by decide)⟩

unseal Rat.add Rat.mul Rat.sub Rat.inv in
/-- Counterexample to C5 as stated: at the boundary
`b.amt = amt_to_remove + resolution_limit` (here 51/100 = 1/2 + 1/100)
the claim says the branch is consumed entirely (popped, so the tracker
becomes empty and `amt_to_remove` drops by `b.amt`), but the code's
strict `<` comparison takes the split arm: the tracker still holds one
branch and `amt_to_remove` is set to 0. -/
theorem c5_boundary_split_not_consumed :
    bG.amt ≤ 1/2 + 1/100
  ∧ (greedyLoopStep (1/100) ⟨1/2, [bG], []⟩).map (fun s => s.stack.length) = some 1
  ∧ (greedyLoopStep (1/100) ⟨1/2, [bG], []⟩).map (fun s => s.amt) = some 0 := by
  refine ⟨by decide, by decide, by decide⟩

unseal Rat.add Rat.mul Rat.sub Rat.inv in
/-- Claim C1: evaluation of the code at a reachable state violating the
conservation invariant.  Account B holds branches of 0.019 and 99 with
balance 100 (tracked sum 99.019 ≤ 100), and sends a fee-free transfer of
50.  The well-mixed final loop removes the 0.019 branch (stay share
below the resolution limit) and, because the list is mutated while being
iterated, skips the 99 branch entirely, leaving it un-depreciated: the
tracked sum stays 99 while the driver's balance update leaves balance
50, so `sum(branch.amt) ≤ balance` fails after the operation. -/
theorem c1_conservation_violated :
    sumAmt trWM ≤ 100
  ∧ sumAmt ((wellMixedExtend (1/100) 100 txnWM trWM).2) = 99
  ∧ (systemProcess 100 0 txnWM).1 = 50
  ∧ ¬ sumAmt ((wellMixedExtend (1/100) 100 txnWM trWM).2)
        ≤ (systemProcess 100 0 txnWM).1 := by
  decide

unseal Rat.add Rat.mul Rat.sub Rat.inv in
/-- Claim C2: evaluation of the final well-mixed loop at a failing input.
With stay_factor 1/2 and resolution_limit 0.01 on the tracker
[0.019, 99], the 0.019 branch is removed, and the iteration then skips
the 99 branch: it remains with its full amount 99 even though
`stay_factor · 99 = 49.5` is not below the resolution limit, so it is
neither removed nor depreciated. -/
theorem c2_wm_final_loop_skips :
    wmFinal (1/100) (1/2) trWM = [Branch.root depB 99]
  ∧ ¬ ((1/2) * (Branch.root depB 99).amt < (1 : ℚ)/100) := by
  decide

unseal Rat.add Rat.mul Rat.sub Rat.inv in
/-- Claim C3: evaluation of `stop_tracking` at a failing input.  With
time_cutoff 24 and timestamp 100, both branches of `trOld` (timestamps
10 and 20) are expired, but removing the first while iterating skips the
second: only one flow is produced and the second expired branch stays in
the tracker. -/
theorem c3_stop_tracking_skips :
    (stop_tracking 24 (some 100) trOld).2 = [Branch.root depO2 7]
  ∧ (100 : ℚ) - (Branch.root depO2 7).txn.timestamp > 24
  ∧ (stop_tracking 24 (some 100) trOld).1.length = 1 := by
  decide

unseal Rat.add Rat.mul Rat.sub Rat.inv in
/-- Claim C10: evaluation of the base (no-tracking) `extend_branches` at
its failing inputs.  For a transaction with `amt_out = 0.005 ≤
resolution_limit` the function raises UnboundLocalError (modelled
`none`); for one with `amt_out > resolution_limit ≥ amt_in` it returns a
bare Flow where the contract requires a list. -/
theorem c10_base_extend_partial :
    (baseExtendBranches (1/100) txnTiny).isNone = true
  ∧ (baseExtendBranches (1/100) txnFeeEaten).map (fun p => isFlowList p.2)
      = some false := by
  decide

/-- Claim C7, amended: for every transaction with `amt_in < 0`, the clamp
sets `amt_in = 0` and `fee_scaling = 1`, adds the (negative) `amt_in` to
the target balance, leaves `amt_out` unchanged, requests
`infer_withdraw(0, fee = −amt_in)` exactly when the target is tracked
(that call emits flows exactly when the excess exceeds the resolution
limit), and — provided `amt_out ≥ 0` — the corrected transaction
satisfies `amt_out ≥ amt_in ≥ 0`. -/
theorem c7_neg_amt_in_clamp (tgt_track : Bool) (amt_in amt_out fs bal r : ℚ)
    (h : amt_in < 0) : clampSpec tgt_track amt_in amt_out fs bal r := by
  unfold clampSpec processNegClamp inferWithdrawEmits
  rw [if_pos h]
  refine ⟨rfl, rfl, rfl, rfl, fun ht => by simp [ht], ?_, fun h2 => ⟨h2, le_refl 0⟩⟩
  simp only [decide_eq_true_eq, gt_iff_lt, zero_add]

/-- Witness for C7: the clamp theorem applied at a concrete over-fee
transaction on a tracked target. -/
theorem c7_neg_amt_in_clamp_witness : clampSpec true (-2) 3 7 10 (1/100) :=
  c7_neg_amt_in_clamp true (-2) 3 7 10 (1/100) (by norm_num)

unseal Rat.add Rat.mul Rat.sub Rat.inv in
/-- Counterexample to C7 as stated: a record under the recipient fee
convention with `amt = −1`, `tgt_fee = 1` is constructed successfully
(amt_out = −1 ≥ amt_in = −2), has `amt_in < 0`, and after the clamp the
corrected transaction has `amt_out = −1 < 0 = amt_in`, so
`amt_out ≥ amt_in ≥ 0` does not hold after the correction. -/
theorem c7_amt_out_can_stay_negative :
    (mkTransaction FeeConvention.recipient (-1) 0 1).map (fun t => (t.amt_out, t.amt_in))
      = some (-1, -2)
  ∧ (processNegClamp true (-2) (-1) 0 0).amt_in = 0
  ∧ (processNegClamp true (-2) (-1) 0 0).amt_out
      < (processNegClamp true (-2) (-1) 0 0).amt_in := by
  decide

/-- Claim C8: the end-of-stream flush is idempotent.  The first flush
closes out every account (balance 0, tracker None), so on a second run
`has_tracker()` is false for every account and no flows are produced. -/
theorem c8_flush_idempotent (cfg : FlushCfg) (accts : List AccountState) :
    (flushSystem cfg (flushSystem cfg accts).2).1 = [] := by
  induction accts with
  | nil => rfl
  | cons a rest ih => simpa [flushSystem, flushAccount, flushAccountFlows] using ih

/-- Claim C9: transaction construction raises exactly the guard
`amt_out < amt_in` (modelled as `none`), and under any of the three fee
conventions every successfully constructed transaction satisfies
`amt_out ≥ amt_in`. -/
theorem c9_txn_construction (conv : FeeConvention) (amt src_fee tgt_fee : ℚ) :
    ((get_amounts conv amt src_fee tgt_fee).1 < (get_amounts conv amt src_fee tgt_fee).2.1 →
      mkTransaction conv amt src_fee tgt_fee = none)
  ∧ (∀ t : TxnRec, mkTransaction conv amt src_fee tgt_fee = some t →
      t.amt_in ≤ t.amt_out) := by
  constructor
  · intro h
    simp [mkTransaction, h]
  · intro t ht
    by_cases h : (get_amounts conv amt src_fee tgt_fee).1
        < (get_amounts conv amt src_fee tgt_fee).2.1
    · simp [mkTransaction, h] at ht
    · simp [mkTransaction, h] at ht
      rw [← ht]
      exact not_lt.mp h

unseal Rat.add Rat.mul Rat.sub Rat.inv in
/-- Witness for C9: a sender-convention record with a negative fee large
enough that `amt_out < amt_in` is rejected, and a successfully
constructed split-convention transaction satisfies `amt_in ≤ amt_out`. -/
theorem c9_txn_construction_witness :
    mkTransaction FeeConvention.sender 1 (-2) 0 = none
  ∧ txnRecEx.amt_in ≤ txnRecEx.amt_out :=
  ⟨(c9_txn_construction FeeConvention.sender 1 (-2) 0).1 (by decide),
   (c9_txn_construction FeeConvention.split 10 1 2).2 txnRecEx (by decide)⟩

end FTM
